import Mathlib

/-!
Verification of the tiered-visibility access-control patch
(`src/node/security_fix_patch.py`) for the Rustchain node.

The patch defines a decorator `public_endpoint` and three HTTP handlers
(`api_miners`, `api_wallet_balance`, `get_epoch`).  We embed the handlers as
pure Lean functions over explicit inputs: the presented `X-API-Key` header
value, the configured `ADMIN_KEY` secret, the rows returned by the store, and
the external constants (`HARDWARE_WEIGHTS`, `UNIT`, `EPOCH_SLOTS`,
`PER_EPOCH_RTC`).  Response bodies are modelled as insertion-ordered
association lists of JSON values, mirroring Python dict construction order.
-/

namespace Rustchain

/-- A flat JSON value: the handlers only ever place scalars (or null) in
response fields, so no nesting is needed at the field level. -/
inductive JVal where
  | jnull : JVal
  | jbool : Bool → JVal
  | jint : Int → JVal
  | jrat : Rat → JVal
  | jstr : String → JVal
  deriving DecidableEq, Repr

/-- A JSON object: the key/value pairs of a Python dict in insertion order. -/
abbrev JObj := List (String × JVal)

/-- Truthiness of an optional Python string (`None` and `""` are falsy). -/
def pyTruthy : Option String → Bool
  | none => false
  | some s => s != ""

/-- Python `x or "unknown"` for an optional string `x`:
`None` and the empty string are replaced by the literal `"unknown"`. -/
def orUnknown : Option String → String
  | none => "unknown"
  | some s => if s = "" then "unknown" else s

/-- Substring test on character lists, used to embed Python `pat in s`. -/
def strContainsAux (pat : List Char) : List Char → Bool
  | [] => pat.isEmpty
  | c :: cs => pat.isPrefixOf (c :: cs) || strContainsAux pat (cs)

/-- Embedding of Python `pat in s` for strings. -/
def strContains (s pat : String) : Bool :=
  strContainsAux pat.data s.data

/-- Embedding of Python `s.lower()`, character by character. -/
def pyLower (s : String) : String :=
  ⟨s.data.map Char.toLower⟩

/-- Embedding of Python `s.upper()`, character by character. -/
def pyUpper (s : String) : String :=
  ⟨s.data.map Char.toUpper⟩

/-- Embedding of Python `s.strip()`: drop whitespace from both ends. -/
def pyStrip (s : String) : String :=
  ⟨((s.data.dropWhile Char.isWhitespace).reverse.dropWhile Char.isWhitespace).reverse⟩

/-- Lines 16–17 (decorator) and 138–139 (`get_epoch`):
`key = request.headers.get("X-API-Key")`;
`is_admin = key == ADMIN_KEY if key else False`.
`key` is `none` when the header is absent. -/
def optionalAuthIsAdmin (key ADMIN_KEY : Option String) : Bool :=
  if pyTruthy key then key == ADMIN_KEY else false

/-- Lines 110–111 (`api_wallet_balance`): the request is treated as admin
exactly when the guard `if key != ADMIN_KEY` does not fire. -/
def balanceIsAdmin (key ADMIN_KEY : Option String) : Bool :=
  key == ADMIN_KEY

/-- The spec's access-level invariant, written from its words: `admin` iff
the presented credential is non-empty and equals the configured secret;
absence or mismatch gives `anonymous` (`false`). -/
def specIsAdmin (key secret : Option String) : Bool :=
  match key with
  | none => false
  | some k => k != "" && some k == secret

/-- The optional-auth check (decorator and epoch handler) agrees with the
spec's invariant for every presented key and every configured secret. -/
theorem optionalAuth_eq_spec (key secret : Option String) :
    optionalAuthIsAdmin key secret = specIsAdmin key secret := by
  cases key with
  | none => rfl
  | some k =>
    by_cases hk : k = ""
    · subst hk; rfl
    · simp [optionalAuthIsAdmin, specIsAdmin, pyTruthy, hk]

/-- The balance handler's check agrees with the spec's invariant whenever the
configured secret is a present, non-empty string. -/
theorem balance_eq_spec_of_goodSecret (key : Option String) (s : String)
    (hs : s ≠ "") : balanceIsAdmin key (some s) = specIsAdmin key (some s) := by
  cases key with
  | none => simp [balanceIsAdmin, specIsAdmin]
  | some k =>
    by_cases hk : k = ""
    · subst hk
      simp [balanceIsAdmin, specIsAdmin, Ne.symm hs]
    · simp [balanceIsAdmin, specIsAdmin, hk]

/-! ### The `/api/miners` handler (`api_miners`, lines 28–97) -/

/-- A row of the query on `miner_attest_recent` (line 43–48):
`SELECT miner, ts_ok, device_family, device_arch, entropy_score`.
`device_family`, `device_arch` and `entropy_score` are nullable. -/
structure AttestRow where
  miner : String
  ts_ok : Int
  device_family : Option String
  device_arch : Option String
  entropy_score : Option Rat
  deriving DecidableEq, Repr

/-- The static two-level `HARDWARE_WEIGHTS` table (an external constant of the
surrounding application): family → (architecture → multiplier). -/
abbrev WeightTable := List (String × List (String × Rat))

/-- Python `d.get(k, default)` on an association-list dict. -/
def dictGet (d : List (String × α)) (k : String) (default : α) : α :=
  (d.lookup k).getD default

/-- Line 57: `HARDWARE_WEIGHTS.get(title_fam, {}).get(title_arch,
HARDWARE_WEIGHTS.get(title_fam, {}).get("default", 1.0))`, where
`title_fam = r["device_family"] or "unknown"` and similarly `title_arch`
(lines 55–56, original case). -/
def antiquityMultiplier (W : WeightTable) (device_family device_arch : Option String) : Rat :=
  let title_fam := orUnknown device_family
  let title_arch := orUnknown device_arch
  dictGet (dictGet W title_fam []) title_arch
    (dictGet (dictGet W title_fam []) "default" 1)

/-- Lines 52–69: the hardware classification.  `arch` and `fam` are the
lower-cased inputs with `None`/`""` defaulted to `"unknown"` (lines 52–53);
the label's architecture uses the original case (line 60). -/
def classifyHardware (device_family device_arch : Option String) : String :=
  let arch := pyLower (orUnknown device_arch)
  let fam := pyLower (orUnknown device_family)
  let title_arch := orUnknown device_arch
  if strContains fam "powerpc" || strContains fam "ppc" then
    if arch = "g3" || arch = "g4" || arch = "g5" then
      "PowerPC " ++ pyUpper title_arch ++ " (Vintage)"
    else
      "PowerPC (Vintage)"
  else if strContains (pyLower fam) "apple"
      || (arch = "m1" || arch = "m2" || arch = "m3" || arch = "apple_silicon") then
    "Apple Silicon (Modern)"
  else if strContains (pyLower fam) "x86" || strContains (pyLower fam) "modern" then
    if strContains arch "retro" || strContains arch "core2" then
      "x86 Retro (Vintage)"
    else
      "x86-64 (Modern)"
  else
    "Unknown/Other"

/-- Outcome of the secondary `MIN(ts_ok)` query on `miner_attest_history`
for one miner (lines 84–87): the statement may raise, `fetchone()` may
return no row, or it returns a row whose single column may be SQL NULL. -/
inductive LookupOutcome where
  | throwErr : LookupOutcome
  | noRow : LookupOutcome
  | row : Option Int → LookupOutcome
  deriving DecidableEq, Repr

/-- Lines 83–90: `first_attest = int(row2[0]) if row2 and row2[0] else None`,
with the whole lookup wrapped in `try/except` that falls back to `None`.
A value of `0` is falsy in Python, so it also yields `None`. -/
def firstAttestOf : LookupOutcome → Option Int
  | .throwErr => none
  | .noRow => none
  | .row none => none
  | .row (some v) => if v = 0 then none else some v

/-- Line 93: `r["entropy_score"] or 0.0` (NULL and `0.0` both give `0.0`). -/
def entropyOf : Option Rat → Rat
  | none => 0
  | some q => if q = 0 then 0 else q

/-- JSON encoding of a nullable string column. -/
def jOptStr : Option String → JVal
  | none => JVal.jnull
  | some s => JVal.jstr s

/-- JSON encoding of a nullable integer. -/
def jOptInt : Option Int → JVal
  | none => JVal.jnull
  | some n => JVal.jint n

/-- Lines 71–78: the `miner_data` dict before the authentication branch. -/
def minerPublicData (W : WeightTable) (r : AttestRow) : JObj :=
  [("miner", JVal.jstr r.miner),
   ("last_attest", JVal.jint r.ts_ok),
   ("device_family", jOptStr r.device_family),
   ("device_arch", jOptStr r.device_arch),
   ("hardware_type", JVal.jstr (classifyHardware r.device_family r.device_arch)),
   ("antiquity_multiplier", JVal.jrat (antiquityMultiplier W r.device_family r.device_arch))]

/-- Lines 71–95: one entry of the response.  When authenticated, lines 92–93
append `first_attest` (from the secondary lookup, whose outcome for each
miner is given by `oracle`) and `entropy_score` to the dict. -/
def minerData (W : WeightTable) (oracle : String → LookupOutcome)
    (is_authenticated : Bool) (r : AttestRow) : JObj :=
  let base := minerPublicData W r
  if is_authenticated then
    base ++ [("first_attest", jOptInt (firstAttestOf (oracle r.miner))),
             ("entropy_score", JVal.jrat (entropyOf r.entropy_score))]
  else
    base

/-- Lines 30–97: the `/api/miners` handler over the rows the recent-attest
query returned.  Line 38 reads the `_is_admin` attribute with `getattr`
defaulting to `False`; `is_admin_attr = none` models an unset attribute.
`jsonify(miners)` responds with status 200. -/
def api_miners (W : WeightTable) (oracle : String → LookupOutcome)
    (is_admin_attr : Option Bool) (rows : List AttestRow) : Nat × List JObj :=
  let is_authenticated := is_admin_attr.getD false
  (200, rows.map (minerData W oracle is_authenticated))

/-! ### The `/wallet/balance` handler (`api_wallet_balance`, lines 103–126) -/

/-- Result of the balance handler: HTTP status, JSON body, and the number of
store queries the handler executed before responding. -/
structure BalanceResult where
  status : Nat
  body : JObj
  queries : Nat
  deriving DecidableEq, Repr

/-- Line 112: the body of the 401 response. -/
def authFailBody : JObj :=
  [("ok", JVal.jbool false),
   ("reason", JVal.jstr "authentication_required"),
   ("message", JVal.jstr "Provide X-API-Key header with valid admin key")]

/-- Line 116: the body of the 400 response. -/
def minerIdRequiredBody : JObj :=
  [("ok", JVal.jbool false), ("error", JVal.jstr "miner_id required")]

/-- Lines 104–126: the `/wallet/balance` handler.  `args_miner_id` is the
`miner_id` query parameter (`request.args.get("miner_id", "")` gives `""`
when absent, then `.strip()`); `balances` gives the `amount_i64` of the
row of the `balances` table for a miner id, if such a row exists;
`UNIT` is the external conversion constant.  Python `/` is exact division
on these values, modelled in `Rat`. -/
def api_wallet_balance (key ADMIN_KEY : Option String) (args_miner_id : Option String)
    (balances : String → Option Int) (UNIT : Rat) : BalanceResult :=
  if balanceIsAdmin key ADMIN_KEY then
    let miner_id := pyStrip (args_miner_id.getD "")
    if miner_id = "" then
      ⟨400, minerIdRequiredBody, 0⟩
    else
      let row := balances miner_id
      let amt : Int := row.getD 0
      ⟨200,
       [("miner_id", JVal.jstr miner_id),
        ("amount_i64", JVal.jint amt),
        ("amount_rtc", JVal.jrat ((amt : Rat) / UNIT))],
       1⟩
  else
    ⟨401, authFailBody, 0⟩

/-! ### The `/epoch` handler (`get_epoch`, lines 132–163) -/

/-- Result of the epoch handler: HTTP status, JSON body, and the value the
handler wrote to the external `epoch_gauge` (line 143). -/
structure EpochResult where
  status : Nat
  body : JObj
  gauge : Int
  deriving DecidableEq, Repr

/-- Lines 133–163: the `/epoch` handler.  `current_slot` is the value of the
external `current_slot()`, `slot_to_epoch` the external conversion,
`EPOCH_SLOTS` and `PER_EPOCH_RTC` the external constants, and `enroll` the
`epoch` column of the `epoch_enroll` table, so that the `COUNT(*)` query of
lines 146–149 counts its entries equal to the current epoch. -/
def get_epoch (key ADMIN_KEY : Option String) (current_slot : Int)
    (slot_to_epoch : Int → Int) (EPOCH_SLOTS : Int) (PER_EPOCH_RTC : Rat)
    (enroll : List Int) : EpochResult :=
  let is_authenticated := optionalAuthIsAdmin key ADMIN_KEY
  let slot := current_slot
  let epoch := slot_to_epoch slot
  let enrolled : Nat := enroll.countP (fun e => e == epoch)
  let response : JObj :=
    [("epoch", JVal.jint epoch),
     ("slot", JVal.jint slot),
     ("blocks_per_epoch", JVal.jint EPOCH_SLOTS)]
  let response :=
    if is_authenticated then
      response ++ [("epoch_pot", JVal.jrat PER_EPOCH_RTC),
                   ("enrolled_miners", JVal.jint (enrolled : Int))]
    else
      response
  ⟨200, response, epoch⟩

/-! ### The `public_endpoint` decorator (lines 7–22) -/

/-- The mutable per-request state the decorator touches: the `X-API-Key`
header and the `_is_admin` attribute (absent unless someone set it). -/
structure PyRequest where
  xApiKey : Option String
  isAdminAttr : Option Bool
  deriving DecidableEq, Repr

/-- Evaluation of a Python expression that may raise `NameError`. -/
inductive PyEval (α : Type) where
  | ok : α → PyEval α
  | nameError : String → PyEval α
  deriving DecidableEq, Repr

/-- Lines 7–22: evaluating `public_endpoint(require_auth)`.  The body refers
to the free name `f` (in `@wraps(f)` and `f(*args, **kwargs)`): `f` is not a
parameter of the factory, so it resolves against the module globals, given
here as `globalF`.  When `f` is bound, the produced wrapper reads the
header, computes `is_admin` (line 17), stores it on the request (line 20)
and calls `f`; when `f` is unbound, evaluation raises `NameError`. -/
def public_endpoint (ADMIN_KEY : Option String)
    (globalF : Option (PyRequest → Nat × List JObj)) (require_auth : Bool) :
    PyEval (PyRequest → Nat × List JObj) :=
  match globalF with
  | none => PyEval.nameError "f"
  | some f =>
      PyEval.ok (fun req =>
        let key := req.xApiKey
        let is_admin := optionalAuthIsAdmin key ADMIN_KEY
        f { req with isAdminAttr := some is_admin })

/-- Modelled from the source file: the patch binds no module-level name `f`
(its only definitions are `public_endpoint` and the three handlers), so the
global lookup of `f` fails. -/
def patchGlobal_f : Option (PyRequest → Nat × List JObj) := none

/-! ## Claim C1 -/

/-- Claim C1 fails as stated: at the concrete input where the header is
absent (`key = none`) and the configured secret is unset (`ADMIN_KEY =
none`), the balance handler's inline check grants `admin` (its guard
`key != ADMIN_KEY` does not fire), while the claimed invariant yields
`anonymous` — the three checks are not uniform over every secret. -/
theorem C1_counterexample : balanceIsAdmin none none ≠ specIsAdmin none none := by
  decide

/-- C1 (amended): the decorator's check and the epoch handler's inline check
derive `admin` iff the presented `X-API-Key` is non-empty and equals the
configured secret, for every value of the secret; the balance handler's
inline check agrees with that invariant only when the configured secret is a
present, non-empty string. -/
theorem C1_access_level (key secret : Option String) :
    optionalAuthIsAdmin key secret = specIsAdmin key secret
    ∧ ∀ s : String, secret = some s → s ≠ "" →
        balanceIsAdmin key secret = specIsAdmin key secret := by
  refine ⟨optionalAuth_eq_spec key secret, ?_⟩
  intro s hs hns
  subst hs
  exact balance_eq_spec_of_goodSecret key s hns

/-- Witness for C1 at concrete inputs: a non-empty secret, with a matching
key for the optional-auth check and an empty key for the balance check. -/
theorem C1_access_level_witness :
    optionalAuthIsAdmin (some "s") (some "s") = specIsAdmin (some "s") (some "s")
    ∧ balanceIsAdmin (some "") (some "s") = specIsAdmin (some "") (some "s") :=
  ⟨(C1_access_level (some "s") (some "s")).1,
   (C1_access_level (some "") (some "s")).2 "s" rfl (by decide)⟩

/-! ## Claim C2 -/

/-- Claim C2: whenever the presented key differs from the configured secret,
the balance handler executes zero store queries and responds exactly with
the structured 401 body — for every store and every parameter value. -/
theorem C2_balance_auth_required (key secret mid : Option String)
    (store : String → Option Int) (UNIT : Rat) (h : key ≠ secret) :
    api_wallet_balance key secret mid store UNIT = ⟨401, authFailBody, 0⟩ := by
  simp [api_wallet_balance, balanceIsAdmin, h]

/-- Witness for C2: a concrete key presented against an unset secret. -/
theorem C2_balance_auth_required_witness :
    api_wallet_balance (some "x") none (some "alice") (fun _ => some 7) 100 =
      ⟨401, authFailBody, 0⟩ :=
  C2_balance_auth_required (some "x") none (some "alice") (fun _ => some 7) 100
    (by decide)

/-! ## Claim C7 -/

/-- Claim C7: with the correct credential and a `miner_id` that is absent or
empty after trimming, the balance handler answers the exact 400 body with
zero queries, for every store. -/
theorem C7_miner_id_required (key secret mid : Option String)
    (store : String → Option Int) (UNIT : Rat) (hk : key = secret)
    (hm : pyStrip (mid.getD "") = "") :
    api_wallet_balance key secret mid store UNIT = ⟨400, minerIdRequiredBody, 0⟩ := by
  subst hk
  simp [api_wallet_balance, balanceIsAdmin, hm]

/-- Witness for C7: correct key, absent `miner_id` parameter. -/
theorem C7_miner_id_required_witness :
    api_wallet_balance (some "k") (some "k") none (fun _ => some 7) 100 =
      ⟨400, minerIdRequiredBody, 0⟩ :=
  C7_miner_id_required (some "k") (some "k") none (fun _ => some 7) 100 rfl rfl

/-! ## Claim C8 -/

/-- Claim C8: with the correct credential and a non-empty trimmed `miner_id`
that has no row in `balances`, the handler answers 200 (not an error) with
`amount_i64 = 0` and `amount_rtc = 0 / UNIT`; and every 200 response of the
handler satisfies `amount_rtc = amount_i64 / UNIT`. -/
theorem C8_unknown_miner_zero (key secret mid : Option String)
    (store : String → Option Int) (UNIT : Rat) (hk : key = secret)
    (hm : pyStrip (mid.getD "") ≠ "") (hrow : store (pyStrip (mid.getD "")) = none) :
    api_wallet_balance key secret mid store UNIT =
      ⟨200,
       [("miner_id", JVal.jstr (pyStrip (mid.getD ""))),
        ("amount_i64", JVal.jint 0),
        ("amount_rtc", JVal.jrat ((0 : Rat) / UNIT))],
       1⟩
    ∧ ∀ (key' secret' mid' : Option String) (store' : String → Option Int)
        (UNIT' : Rat),
        (api_wallet_balance key' secret' mid' store' UNIT').status = 200 →
        ∃ (m : String) (a : Int),
          (api_wallet_balance key' secret' mid' store' UNIT').body =
            [("miner_id", JVal.jstr m),
             ("amount_i64", JVal.jint a),
             ("amount_rtc", JVal.jrat ((a : Rat) / UNIT'))] := by
  constructor
  · subst hk
    simp [api_wallet_balance, balanceIsAdmin, hm, hrow]
  · intro key' secret' mid' store' UNIT' hst
    unfold api_wallet_balance at hst ⊢
    by_cases ha : balanceIsAdmin key' secret'
    · simp only [ha, if_true] at hst ⊢
      by_cases hmid : pyStrip (mid'.getD "") = ""
      · simp [hmid] at hst
      · simp only [hmid, if_neg, if_false] at hst ⊢
        exact ⟨pyStrip (mid'.getD ""), ((store' (pyStrip (mid'.getD ""))).getD 0), rfl⟩
    · simp [ha] at hst

/-- Witness for C8: correct key, `miner_id` of a miner with no balance row. -/
theorem C8_unknown_miner_zero_witness :
    api_wallet_balance (some "k") (some "k") (some "bob") (fun _ => none) 100 =
      ⟨200,
       [("miner_id", JVal.jstr (pyStrip ((some "bob").getD ""))),
        ("amount_i64", JVal.jint 0),
        ("amount_rtc", JVal.jrat ((0 : Rat) / 100))],
       1⟩ :=
  (C8_unknown_miner_zero (some "k") (some "k") (some "bob") (fun _ => none) 100
    rfl (by decide) rfl).1

/-! ## Claim C9 -/

/-- Claim C9: with `f` unbound in the module globals — the patch binds no
such name — evaluating `public_endpoint(require_auth)` raises `NameError`
instead of producing a decorated handler, for every secret and every value
of `require_auth`; hence the decorator never attaches `_is_admin`. -/
theorem C9_decorator_unbound_f (ADMIN_KEY : Option String) (require_auth : Bool) :
    public_endpoint ADMIN_KEY patchGlobal_f require_auth = PyEval.nameError "f" :=
  rfl

/-! ## Claim C4 -/

/-- Claim C4: the hardware classification is a total deterministic function
of the (family, architecture) pair: every pair, nulls included, yields
exactly one label among the four categories; the rules apply in order
(powerpc/ppc first, then apple / m-series arch, then x86/modern, else
Unknown/Other, witnessed at inputs matching several rules); in particular
family `"Apple"`, arch `"M2"` gives `"Apple Silicon (Modern)"` and both
null gives `"Unknown/Other"`. -/
theorem C4_classification_total (fam arch : Option String) :
    ((∃ a, classifyHardware fam arch = "PowerPC " ++ a ++ " (Vintage)")
      ∨ classifyHardware fam arch = "PowerPC (Vintage)"
      ∨ classifyHardware fam arch = "Apple Silicon (Modern)"
      ∨ classifyHardware fam arch = "x86 Retro (Vintage)"
      ∨ classifyHardware fam arch = "x86-64 (Modern)"
      ∨ classifyHardware fam arch = "Unknown/Other")
    ∧ classifyHardware (some "Apple") (some "M2") = "Apple Silicon (Modern)"
    ∧ classifyHardware none none = "Unknown/Other"
    ∧ classifyHardware (some "powerpc apple x86") (some "m1") = "PowerPC (Vintage)"
    ∧ classifyHardware (some "apple x86") none = "Apple Silicon (Modern)" := by
  refine ⟨?_, rfl, rfl, rfl, rfl⟩
  unfold classifyHardware
  dsimp only
  split
  · split
    · exact Or.inl ⟨_, rfl⟩
    · exact Or.inr (Or.inl rfl)
  · split
    · exact Or.inr (Or.inr (Or.inl rfl))
    · split
      · split
        · exact Or.inr (Or.inr (Or.inr (Or.inl rfl)))
        · exact Or.inr (Or.inr (Or.inr (Or.inr (Or.inl rfl))))
      · exact Or.inr (Or.inr (Or.inr (Or.inr (Or.inr rfl))))

/-! ## Claim C5 -/

/-- Claim C5: the antiquity multiplier resolves by the three-level fallback —
exact (family, architecture) entry, else the family's `"default"` entry,
else `1.0`; a family with no entry at all gives `1.0`; the keys are the
original-case strings (witnessed by the concrete case-sensitive lookups). -/
theorem C5_multiplier_fallback (W : WeightTable) (fam arch : Option String) :
    (∀ ft, W.lookup (orUnknown fam) = some ft →
       (∀ v, ft.lookup (orUnknown arch) = some v →
          antiquityMultiplier W fam arch = v)
       ∧ (ft.lookup (orUnknown arch) = none →
          (∀ d, ft.lookup "default" = some d → antiquityMultiplier W fam arch = d)
          ∧ (ft.lookup "default" = none → antiquityMultiplier W fam arch = 1)))
    ∧ (W.lookup (orUnknown fam) = none → antiquityMultiplier W fam arch = 1)
    ∧ antiquityMultiplier [("PowerMac", [("G4", 2)])] (some "PowerMac") (some "G4") = 2
    ∧ antiquityMultiplier [("PowerMac", [("G4", 2)])] (some "powermac") (some "G4") = 1 := by
  refine ⟨?_, ?_, rfl, rfl⟩
  · intro ft hft
    constructor
    · intro v hv
      simp [antiquityMultiplier, dictGet, hft, hv]
    · intro hnone
      constructor
      · intro d hd
        simp [antiquityMultiplier, dictGet, hft, hnone, hd]
      · intro hnd
        simp [antiquityMultiplier, dictGet, hft, hnone, hnd]
  · intro hfam
    simp [antiquityMultiplier, dictGet, hfam]

/-- Witness for C5: the empty table falls all the way through to `1.0`. -/
theorem C5_multiplier_fallback_witness :
    antiquityMultiplier [] none none = 1 :=
  (C5_multiplier_fallback [] none none).2.1 rfl

/-! ## Claim C10 -/

/-- Claim C10: with the `_is_admin` attribute never set (`getattr` default
`False`), the miners handler produces exactly the sanitized anonymous
response: the public per-miner dict, with neither `first_attest` nor
`entropy_score` present in any entry. -/
theorem C10_miners_fail_closed (W : WeightTable) (oracle : String → LookupOutcome)
    (rows : List AttestRow) :
    (api_miners W oracle none rows).2 = rows.map (minerPublicData W)
    ∧ ∀ obj ∈ (api_miners W oracle none rows).2,
        obj.lookup "first_attest" = none ∧ obj.lookup "entropy_score" = none := by
  constructor
  · rfl
  · intro obj hobj
    rcases List.mem_map.1 hobj with ⟨r, _, rfl⟩
    exact ⟨rfl, rfl⟩

/-- Witness for C10 on a concrete one-row store with no flag set. -/
theorem C10_miners_fail_closed_witness :
    (minerPublicData [] ⟨"m1", 5, none, none, none⟩).lookup "first_attest" = none
    ∧ (minerPublicData [] ⟨"m1", 5, none, none, none⟩).lookup "entropy_score" = none :=
  (C10_miners_fail_closed [] (fun _ => LookupOutcome.noRow)
      [⟨"m1", 5, none, none, none⟩]).2
    (minerPublicData [] ⟨"m1", 5, none, none, none⟩)
    (List.mem_singleton.mpr rfl)

/-! ## Claim C3 -/

/-- Claim C3 fails as stated: at the concrete input where the configured
secret is the empty string and the request presents an empty `X-API-Key`
header, the credential equals the configured secret, yet the epoch response
is the bare public body without the restricted fields (the optional-auth
check treats an empty key as unauthenticated). -/
theorem C3_counterexample :
    (get_epoch (some "") (some "") 0 id 10 5 []).body =
      [("epoch", JVal.jint 0), ("slot", JVal.jint 0),
       ("blocks_per_epoch", JVal.jint 10)]
    ∧ (get_epoch (some "") (some "") 0 id 10 5 []).body.lookup "epoch_pot" = none :=
  ⟨rfl, rfl⟩

/-- C3 (amended): over the same store contents, when the access level is
anonymous (credential absent, empty, or different from the secret) the
optional-auth responses carry only the public fields and no restricted field
name; when the credential is non-empty and equals the secret, each response
is exactly the anonymous one extended with the restricted fields and nothing
else.  The miners handler is driven by the `_is_admin` value the decorator
computes from the same credential. -/
theorem C3_field_visibility (key secret : Option String) (W : WeightTable)
    (oracle : String → LookupOutcome) (rows : List AttestRow)
    (slot : Int) (ste : Int → Int) (ES : Int) (PR : Rat) (enroll : List Int) :
    (specIsAdmin key secret = false →
       (api_miners W oracle (some (optionalAuthIsAdmin key secret)) rows).2 =
         rows.map (minerPublicData W)
       ∧ (∀ obj ∈ (api_miners W oracle (some (optionalAuthIsAdmin key secret)) rows).2,
            obj.lookup "first_attest" = none ∧ obj.lookup "entropy_score" = none)
       ∧ (get_epoch key secret slot ste ES PR enroll).body =
           [("epoch", JVal.jint (ste slot)), ("slot", JVal.jint slot),
            ("blocks_per_epoch", JVal.jint ES)]
       ∧ (get_epoch key secret slot ste ES PR enroll).body.lookup "epoch_pot" = none
       ∧ (get_epoch key secret slot ste ES PR enroll).body.lookup "enrolled_miners" = none)
    ∧ (specIsAdmin key secret = true →
       (api_miners W oracle (some (optionalAuthIsAdmin key secret)) rows).2 =
         rows.map (fun r => minerPublicData W r ++
           [("first_attest", jOptInt (firstAttestOf (oracle r.miner))),
            ("entropy_score", JVal.jrat (entropyOf r.entropy_score))])
       ∧ (get_epoch key secret slot ste ES PR enroll).body =
           [("epoch", JVal.jint (ste slot)), ("slot", JVal.jint slot),
            ("blocks_per_epoch", JVal.jint ES)] ++
           [("epoch_pot", JVal.jrat PR),
            ("enrolled_miners",
             JVal.jint ((enroll.countP fun e => e == ste slot) : Nat))]) := by
  have ha := optionalAuth_eq_spec key secret
  constructor
  · intro h
    have h' : optionalAuthIsAdmin key secret = false := ha.trans h
    rw [h']
    refine ⟨rfl, ?_, ?_, ?_, ?_⟩
    · intro obj hobj
      have hobj' : obj ∈ rows.map (minerData W oracle false) := hobj
      rcases List.mem_map.1 hobj' with ⟨r, _, rfl⟩
      exact ⟨rfl, rfl⟩
    · simp [get_epoch, h']
    · simp [get_epoch, h']
    · simp [get_epoch, h']
  · intro h
    have h' : optionalAuthIsAdmin key secret = true := ha.trans h
    rw [h']
    exact ⟨rfl, by simp [get_epoch, h']⟩

/-- Witness for C3: anonymous request (no header, unset secret) to the epoch
endpoint leaves the restricted `epoch_pot` field absent. -/
theorem C3_field_visibility_witness :
    (get_epoch none none 3 id 10 5 []).body.lookup "epoch_pot" = none :=
  ((C3_field_visibility none none [] (fun _ => LookupOutcome.noRow) [] 3 id 10 5
      []).1 rfl).2.2.2.1

/-! ## Claim C6 -/

/-- Removal of the `first_attest` field from a response object. -/
def eraseFirstAttest (obj : JObj) : JObj :=
  obj.filter (fun p => p.1 != "first_attest")

/-- An authenticated miners entry is the public dict plus the two restricted
fields, the first coming from the secondary lookup's outcome. -/
theorem minerData_true_eq (W : WeightTable) (o : String → LookupOutcome)
    (r : AttestRow) :
    minerData W o true r =
      minerPublicData W r ++
        [("first_attest", jOptInt (firstAttestOf (o r.miner))),
         ("entropy_score", JVal.jrat (entropyOf r.entropy_score))] :=
  rfl

/-- Dropping `first_attest` from an authenticated entry leaves data that does
not depend on the secondary lookup at all. -/
theorem eraseFA_minerData (W : WeightTable) (o : String → LookupOutcome)
    (r : AttestRow) :
    eraseFirstAttest (minerData W o true r) =
      minerPublicData W r ++
        [("entropy_score", JVal.jrat (entropyOf r.entropy_score))] :=
  rfl

/-- Claim C6: in an authenticated miners request, if the secondary
first-attestation lookup throws or finds no row for miner `m`, then every
response entry of miner `m` has `first_attest = null`, the response agrees
with the one under any other lookup behaviour (`o2`, equal off `m`) on
everything except the `first_attest` field, entries of other miners are
identical, and the request still succeeds with status 200. -/
theorem C6_partial_lookup_isolation (W : WeightTable)
    (o1 o2 : String → LookupOutcome) (m : String) (rows : List AttestRow)
    (hagree : ∀ x, x ≠ m → o1 x = o2 x)
    (hfail : o1 m = LookupOutcome.throwErr ∨ o1 m = LookupOutcome.noRow) :
    (api_miners W o1 (some true) rows).1 = 200
    ∧ (api_miners W o1 (some true) rows).2 = rows.map (minerData W o1 true)
    ∧ (∀ obj ∈ (api_miners W o1 (some true) rows).2,
         obj.lookup "miner" = some (JVal.jstr m) →
         obj.lookup "first_attest" = some JVal.jnull)
    ∧ (api_miners W o1 (some true) rows).2.map eraseFirstAttest =
        (api_miners W o2 (some true) rows).2.map eraseFirstAttest
    ∧ (∀ r ∈ rows, r.miner ≠ m → minerData W o1 true r = minerData W o2 true r) := by
  refine ⟨rfl, rfl, ?_, ?_, ?_⟩
  · intro obj hobj hm
    have hobj' : obj ∈ rows.map (minerData W o1 true) := hobj
    rcases List.mem_map.1 hobj' with ⟨r, _, rfl⟩
    have hmr : (minerData W o1 true r).lookup "miner" = some (JVal.jstr r.miner) := rfl
    rw [hmr] at hm
    have hrm : r.miner = m := by injection hm with hm1; injection hm1
    have hfa : (minerData W o1 true r).lookup "first_attest" =
        some (jOptInt (firstAttestOf (o1 r.miner))) := rfl
    rw [hfa, hrm]
    rcases hfail with h | h <;> rw [h] <;> rfl
  · show (rows.map (minerData W o1 true)).map eraseFirstAttest =
      (rows.map (minerData W o2 true)).map eraseFirstAttest
    rw [List.map_map, List.map_map]
    refine List.map_congr_left fun r _ => ?_
    show eraseFirstAttest (minerData W o1 true r) =
      eraseFirstAttest (minerData W o2 true r)
    rw [eraseFA_minerData, eraseFA_minerData]
  · intro r _ hne
    rw [minerData_true_eq, minerData_true_eq, hagree r.miner hne]

/-- Witness for C6: a one-miner store whose lookup throws; the entry's
`first_attest` is null. -/
theorem C6_partial_lookup_isolation_witness :
    (minerData []
        (fun x => if x = "m" then LookupOutcome.throwErr
                  else LookupOutcome.row (some 7))
        true ⟨"m", 1, none, none, none⟩).lookup "first_attest" =
      some JVal.jnull :=
  (C6_partial_lookup_isolation []
      (fun x => if x = "m" then LookupOutcome.throwErr
                else LookupOutcome.row (some 7))
      (fun _ => LookupOutcome.row (some 7)) "m" [⟨"m", 1, none, none, none⟩]
      (fun x hx => by simp [hx]) (Or.inl rfl)).2.2.1
    (minerData []
      (fun x => if x = "m" then LookupOutcome.throwErr
                else LookupOutcome.row (some 7))
      true ⟨"m", 1, none, none, none⟩)
    (List.mem_singleton.mpr rfl) rfl

end Rustchain
